import Mathlib

/-!
Verification of the Refire Shopify theme client components.

This file gives a shallow embedding of the two browser-side custom elements
of the repository — the quick-view product drawer (src/unnamed/part_000,
class QuickViewDrawer) and the header mega-menu (src/assets/header-menu.js,
class HeaderMenu) — and proves the frozen claims about them.

DOM state touched by the components is made explicit: the drawer content is a
`DrawerContent` value, the cached fetch results are an association list, the
menu aria attributes are boolean fields, and debounced timers are explicit
pending slots. Fetching is modelled by a `server` function passed as a
parameter; each drawer load reports how many fetches it performed.
-/

namespace Refire

/-! ## Quick-view drawer: product data model (part_000) -/

/-- A product variant as used by the drawer: `variant.id`, `variant.available`
and `variant.options` are the fields the code reads. -/
structure Variant where
  id : Nat
  available : Bool
  options : List String
deriving Repr, DecidableEq

/-- A product option group: `option.name` and `option.values` as read by
`buildVariantOptions`. -/
structure ProdOption where
  name : String
  values : List String
deriving Repr, DecidableEq

/-- The raw product parsed from the `[data-product-json]` element. The fields
`images`, `variants` and `options` may be absent (`product.images || []` in
the source). -/
structure RawProduct where
  id : Nat
  title : String
  description : Option String
  price : Int
  compare_at_price : Option Int
  available : Bool
  images : Option (List String)
  variants : Option (List Variant)
  options : Option (List ProdOption)
  handle : String
deriving Repr, DecidableEq

/-- The extracted product data stored in the cache and rendered into the
drawer (the object literal returned by `extractProductData`). -/
structure ProductData where
  id : Nat
  title : String
  description : Option String
  price : Int
  compare_at_price : Option Int
  available : Bool
  images : List String
  variants : List Variant
  options : List ProdOption
  handle : String
deriving Repr, DecidableEq

/-- Embedding of `extractProductData(doc)`. The composite
`doc.querySelector('[data-product-json]')` followed by `JSON.parse` is
modelled by an `Option RawProduct`: `none` when the element is missing (or its
text parses to a falsy value), in which case the source throws
`Error('Product data not found')`, modelled as `Except.error`. Otherwise the
object literal with `|| []` defaults is built. -/
def extractProductData (product : Option RawProduct) : Except Unit ProductData :=
  match product with
  | none => Except.error ()
  | some p =>
      Except.ok
        { id := p.id
          title := p.title
          description := p.description
          price := p.price
          compare_at_price := p.compare_at_price
          available := p.available
          images := p.images.getD []
          variants := p.variants.getD []
          options := p.options.getD []
          handle := p.handle }

/-! ## Quantity selector (`initializeQuantitySelector`) -/

/-- Embedding of the minus-button click handler: decrement only when the
current value is greater than 1. -/
def minusClick (currentValue : Nat) : Nat :=
  if 1 < currentValue then currentValue - 1 else currentValue

/-- Embedding of the plus-button click handler: increment only when the
current value is below 999. -/
def plusClick (currentValue : Nat) : Nat :=
  if currentValue < 999 then currentValue + 1 else currentValue

/-- A click on one of the two quantity buttons. -/
inductive QtyClick
  | minus
  | plus
deriving Repr, DecidableEq

/-- Apply one quantity-button click to the input value. -/
def applyQtyClick (c : QtyClick) (v : Nat) : Nat :=
  match c with
  | QtyClick.minus => minusClick v
  | QtyClick.plus => plusClick v

/-- Apply a sequence of quantity-button clicks, in order, to the input value.
The input starts at the rendered `value="1"`; the handlers read it back with
`parseInt(...)`, which round-trips the integers written here. -/
def applyQtyClicks (cs : List QtyClick) (v : Nat) : Nat :=
  cs.foldl (fun acc c => applyQtyClick c acc) v

/-! ## Media gallery (`buildMediaGallery`) -/

/-- The markup for a single media item, as produced inside the `map` in
`buildMediaGallery`. -/
def mediaItemHtml (image : String) : String :=
  "\n      <div class=\"quick-view-media-item\">\n        <img src=\"" ++ image ++
    "\" alt=\"Product image\" loading=\"lazy\">\n      </div>\n    "

/-- The wrapper markup around the joined media items. -/
def mediaGalleryWrap (imageItems : String) : String :=
  "\n      <div class=\"quick-view-media-gallery\">\n        <div class=\"quick-view-media-scroll\">\n          " ++
    imageItems ++ "\n        </div>\n      </div>\n    "

/-- Embedding of `buildMediaGallery(images)`: empty string when `images` is
missing or empty, otherwise the first five images (`slice(0, 5)`) mapped to
item markup, joined, and wrapped. -/
def buildMediaGallery (images : Option (List String)) : String :=
  match images with
  | none => ""
  | some imgs =>
      if imgs.length = 0 then ""
      else mediaGalleryWrap (String.join ((imgs.take 5).map mediaItemHtml))

/-! ## Variant selection (`getSelectedVariant`) -/

/-- Embedding of the predicate
`selectedOptions.every((option, index) => variant.options[index] === option)`:
every selected value, at its index, equals the variant option at the same
index (a strict equality against `undefined` is false, so an out-of-range
index never matches). -/
def matchesSel (v : Variant) (selectedOptions : List String) : Bool :=
  selectedOptions.enum.all fun p => v.options.get? p.1 == some p.2

/-- Embedding of the tail of `getSelectedVariant`:
`product.variants.find(variant => ...) || product.variants[0]`. The DOM walk
collecting `selectedOptions` is passed in as a list. -/
def getSelectedVariant (product : ProductData) (selectedOptions : List String) :
    Option Variant :=
  match product.variants.find? (fun v => matchesSel v selectedOptions) with
  | some v => some v
  | none => product.variants.head?

/-! ## Drawer state: cache and fetch-cache-render flow (`loadProductData`) -/

/-- The `Map.get` of `cachedContent`, on an association list keyed by product
handle. -/
def cacheGet (cache : List (String × ProductData)) (handle : String) :
    Option ProductData :=
  (cache.find? fun p => p.1 = handle).map fun p => p.2

/-- The `Map.set` of `cachedContent`: replace the entry in place when the key
exists, otherwise append. -/
def cacheSet (cache : List (String × ProductData)) (handle : String)
    (d : ProductData) : List (String × ProductData) :=
  if cache.any (fun p => p.1 = handle) then
    cache.map fun p => if p.1 = handle then (handle, d) else p
  else cache ++ [(handle, d)]

/-- What `drawerContent.innerHTML` holds: the loading spinner (`showLoading`),
the error markup (`showError`), or the product content rendered from extracted
data (`updateDrawerContent`, which is deterministic in the data). -/
inductive DrawerContent
  | loading
  | error
  | rendered (d : ProductData)
deriving Repr, DecidableEq

/-- The state `loadProductData` reads and writes: the `cachedContent` map and
the drawer content element. -/
structure DrawerState where
  cache : List (String × ProductData)
  content : DrawerContent
deriving Repr, DecidableEq

/-- The outcome of `fetch` followed by `DOMParser.parseFromString`: the
response `ok` flag, and the `[data-product-json]` payload of the parsed
document (`none` when the element is missing or parses to a falsy value). -/
structure FetchResponse where
  ok : Bool
  productJson : Option RawProduct
deriving Repr, DecidableEq

/-- Embedding of `loadProductData(productHandle)`. `server` models the
network: what `fetch` with a given handle returns. The result pairs the new
drawer state with the number of fetches this call performed. The flow follows
the source: show the loading state, consult the cache; on a miss, fetch,
throw on a non-ok response, extract the product data (which may throw), cache
it, and render; any throw lands in the catch block, which shows the error
state. -/
def loadProductData (server : String → FetchResponse) (productHandle : String)
    (s : DrawerState) : DrawerState × Nat :=
  let s1 : DrawerState := { s with content := DrawerContent.loading }
  match cacheGet s1.cache productHandle with
  | some productData =>
      ({ s1 with content := DrawerContent.rendered productData }, 0)
  | none =>
      let response := server productHandle
      if response.ok then
        match extractProductData response.productJson with
        | Except.ok productData =>
            ({ cache := cacheSet s1.cache productHandle productData,
               content := DrawerContent.rendered productData }, 1)
        | Except.error _ => ({ s1 with content := DrawerContent.error }, 1)
      else ({ s1 with content := DrawerContent.error }, 1)

/-! ## Quick-view click handler (`handleQuickViewClick`) -/

/-- JavaScript truthiness of a dataset string: `undefined` and the empty
string are falsy. -/
def truthyStr (s : Option String) : Bool :=
  match s with
  | none => false
  | some str => str != ""

/-- The dataset of a `.product-card__quick-view-btn` element. -/
structure QuickViewBtn where
  productId : Option String
  productHandle : Option String
deriving Repr, DecidableEq

/-- A click event, as the handler sees it: the result of
`event.target.closest('.product-card__quick-view-btn')`. -/
structure ClickEvent where
  quickViewBtn : Option QuickViewBtn
deriving Repr, DecidableEq

/-- The observable effects of one run of the click handler: whether
`preventDefault` and `stopPropagation` were called, which handle (if any) was
passed to `loadProductData`, and whether `showDialog` ran. -/
structure ClickResult where
  prevented : Bool
  stopped : Bool
  loadedHandle : Option String
  dialogShown : Bool
deriving Repr, DecidableEq

/-- Embedding of `handleQuickViewClick(event)`: return untouched when the
click is not on a quick-view button; otherwise call `preventDefault` and
`stopPropagation`, then return without loading or showing when either dataset
field is falsy, and otherwise load the handle and show the dialog. -/
def handleQuickViewClick (event : ClickEvent) : ClickResult :=
  match event.quickViewBtn with
  | none =>
      { prevented := false, stopped := false, loadedHandle := none,
        dialogShown := false }
  | some btn =>
      if truthyStr btn.productId && truthyStr btn.productHandle then
        { prevented := true, stopped := true,
          loadedHandle := btn.productHandle, dialogShown := true }
      else
        { prevented := true, stopped := true, loadedHandle := none,
          dialogShown := false }

/-! ## Header mega-menu (src/assets/header-menu.js) -/

/-- The activation delay of the debounced activate handler. -/
def ACTIVATE_DELAY : Nat := 0

/-- The deactivation delay of the debounced deactivate. -/
def DEACTIVATE_DELAY : Nat := 350

/-- The aria/active state the HeaderMenu instance maintains: the single
`state.activeItem`, the `ariaExpanded` of the component itself, the
`dataset.overflowExpanded` flag, and the per-item `ariaExpanded` attributes
(items are identified by a natural number). -/
structure MenuState where
  activeItem : Option Nat
  selfExpanded : Bool
  overflowExpanded : Bool
  aria : Nat → Bool

/-- Embedding of `activateHandler(event)`. The DOM lookup
`findMenuItem(event.target)` is passed in as `item` (`none` when the target
is not an element or no menu item is found); `isDefaultSlot` is
`event.target.slot === ''`. The handler returns unchanged when there is no
item or the item is already active; otherwise it collapses the previously
active item, records the new item as active, and expands it. -/
def activateHandler (item : Option Nat) (isDefaultSlot : Bool) (s : MenuState) :
    MenuState :=
  match item with
  | none => s
  | some it =>
      if s.activeItem = some it then s
      else
        { activeItem := some it
          selfExpanded := true
          overflowExpanded := !isDefaultSlot
          aria := fun j =>
            if j = it then true
            else if s.activeItem = some j then false
            else s.aria j }

/-- Embedding of the private `deactivate` arrow function (the one the
debounced deactivate timer runs). `item` defaults at fire time to the current
active item in the source; here it is explicit. The body returns unchanged
when `item` is null, is no longer the active item, or the overflow menu is
hovered (`overflowHovered`); otherwise it clears the active item and its
aria state. -/
def deactivateNow (item : Option Nat) (overflowHovered : Bool) (s : MenuState) :
    MenuState :=
  match item with
  | none => s
  | some it =>
      if s.activeItem ≠ some it then s
      else if overflowHovered then s
      else
        { activeItem := none
          selfExpanded := false
          overflowExpanded := false
          aria := fun j => if j = it then false else s.aria j }

/-- The menu state rendered by the server before any pointer event: nothing
active, nothing expanded. -/
def initialMenuState : MenuState :=
  { activeItem := none, selfExpanded := false, overflowExpanded := false,
    aria := fun _ => false }

/-- The states reachable from the initial state through the two transitions
that touch `state.activeItem` and the item aria attributes. -/
inductive ReachableMenu : MenuState → Prop
  | init : ReachableMenu initialMenuState
  | act (s : MenuState) (item : Option Nat) (isDefaultSlot : Bool) :
      ReachableMenu s → ReachableMenu (activateHandler item isDefaultSlot s)
  | deact (s : MenuState) (item : Option Nat) (overflowHovered : Bool) :
      ReachableMenu s → ReachableMenu (deactivateNow item overflowHovered s)

/-- At most one menu item carries `ariaExpanded = 'true'`. -/
def AtMostOneAria (s : MenuState) : Prop :=
  ∀ j k, s.aria j = true → s.aria k = true → j = k

/-- The strengthened invariant the transitions preserve: only the active item
may be expanded. -/
def AriaMatchesActive (s : MenuState) : Prop :=
  ∀ j, s.aria j = true → s.activeItem = some j

/-! ## Debounce scheduling (`activate`, `deactivate`, the two timers) -/

/-- The pending slots of the two debounced functions: the payload of a
pending `debouncedActivateHandler` call and whether a `debouncedDeactivate`
is pending. Activation events are identified by a natural number. -/
structure Sched where
  pendingActivate : Option Nat
  pendingDeactivate : Bool
deriving Repr, DecidableEq

/-- Embedding of `activate(event)`: cancel the pending debounced deactivate,
cancel the pending debounced activate, then schedule the debounced activate
with this event. -/
def activate (e : Nat) (_s : Sched) : Sched :=
  { pendingActivate := some e, pendingDeactivate := false }

/-- Embedding of the public `deactivate(event)`: cancel the pending debounced
activate first; then, when the guards pass (the target resolves to the item
still active and the pointer did not move into the submenu), schedule the
debounced deactivate — scheduling a debounced function replaces any pending
call. When the guards fail the pending deactivate slot is left as it was. -/
def deactivateCall (guardsPass : Bool) (s : Sched) : Sched :=
  { pendingActivate := none
    pendingDeactivate := if guardsPass then true else s.pendingDeactivate }

/-- A call into the menu component: a hover activation or a deactivation
request. -/
inductive MenuCall
  | act (e : Nat)
  | deact (guardsPass : Bool)
deriving Repr, DecidableEq

/-- Process a sequence of `activate` and `deactivate` calls against the
debounce slots. -/
def processCalls (calls : List MenuCall) (s : Sched) : Sched :=
  calls.foldl
    (fun acc c =>
      match c with
      | MenuCall.act e => activate e acc
      | MenuCall.deact g => deactivateCall g acc)
    s

/-- Firing the debounced deactivate timer: when a deactivation is pending it
runs the private deactivate on the current active item, otherwise nothing
happens. -/
def fireDeactivate (sched : Sched) (overflowHovered : Bool) (m : MenuState) :
    MenuState :=
  if sched.pendingDeactivate then deactivateNow m.activeItem overflowHovered m
  else m

/-! ## Timed deactivation (pointerleave / pointerenter handlers) -/

/-- Menu state together with the wall-clock fire time of the pending
debounced deactivate, for the timed claims. -/
structure TimedMenu where
  menu : MenuState
  pendingDeactAt : Option Nat

/-- Scheduling `debouncedDeactivate()` at time `now`: the timer is (re)set to
fire `DEACTIVATE_DELAY` later; the menu state itself is untouched. -/
def scheduleDeactivate (now : Nat) (s : TimedMenu) : TimedMenu :=
  { s with pendingDeactAt := some (now + DEACTIVATE_DELAY) }

/-- Embedding of the overflow-menu `pointerleave` listener:
`() => this.debouncedDeactivate()`. -/
def overflowPointerLeave (now : Nat) (s : TimedMenu) : TimedMenu :=
  scheduleDeactivate now s

/-- Embedding of the component `pointerleave` listener: schedule the
debounced deactivate only when the target is inside a
`.menu-list__submenu`. -/
def submenuPointerLeave (inSubmenu : Bool) (now : Nat) (s : TimedMenu) :
    TimedMenu :=
  if inSubmenu then scheduleDeactivate now s else s

/-- Embedding of the component `pointerenter` listener: cancel the debounced
deactivate only when the target is inside a `.menu-list__submenu`. -/
def submenuPointerEnter (inSubmenu : Bool) (s : TimedMenu) : TimedMenu :=
  if inSubmenu then { s with pendingDeactAt := none } else s

/-- The timer fabric at time `now`: the pending deactivate fires exactly at
its scheduled time, running the private deactivate on the active item. -/
def timerTick (now : Nat) (overflowHovered : Bool) (s : TimedMenu) : TimedMenu :=
  match s.pendingDeactAt with
  | none => s
  | some t =>
      if now = t then
        { menu := deactivateNow s.menu.activeItem overflowHovered s.menu
          pendingDeactAt := none }
      else s

/-! ## Submenu toggle click handler (connectedCallback) -/

/-- The DOM state the submenu toggle click handler touches: whether the
link has `aria-expanded="true"` and whether the submenu carries the `hidden`
attribute. -/
structure SubmenuToggleState where
  ariaExpanded : Bool
  hidden : Bool
deriving Repr, DecidableEq

/-- Embedding of the `.menu-list__link--has-submenu` click handler: read
`isExpanded`, set `aria-expanded` to its negation, and when a submenu element
exists set `hidden` when it was expanded and remove `hidden` when it was not.
`hasSubmenu` is whether `querySelector('.menu-list__submenu')` found an
element. -/
def submenuToggleClick (hasSubmenu : Bool) (s : SubmenuToggleState) :
    SubmenuToggleState :=
  let isExpanded := s.ariaExpanded
  { ariaExpanded := !isExpanded
    hidden := if hasSubmenu then (if isExpanded then true else false) else s.hidden }

/-! ## Demonstration data used by the witness theorems -/

/-- A concrete raw product, as parsed from `[data-product-json]`. -/
def demoRawProduct : RawProduct :=
  { id := 1, title := "Shirt", description := none, price := 1000,
    compare_at_price := none, available := true, images := some ["a.jpg"],
    variants := none, options := none, handle := "shirt" }

/-- The extraction of `demoRawProduct`. -/
def demoProductData : ProductData :=
  { id := 1, title := "Shirt", description := none, price := 1000,
    compare_at_price := none, available := true, images := ["a.jpg"],
    variants := [], options := [], handle := "shirt" }

/-- A server that answers every handle with a parseable product page. -/
def demoServer : String → FetchResponse :=
  fun _ => { ok := true, productJson := some demoRawProduct }

/-- A server whose responses are not ok. -/
def demoErrServer : String → FetchResponse :=
  fun _ => { ok := false, productJson := none }

/-- A drawer state with an empty cache. -/
def demoEmptyState : DrawerState :=
  { cache := [], content := DrawerContent.loading }

/-- A concrete variant whose single option value is Red. -/
def demoVariantA : Variant := { id := 10, available := true, options := ["Red"] }

/-- A concrete variant whose single option value is Blue. -/
def demoVariantB : Variant := { id := 11, available := false, options := ["Blue"] }

/-- A product with two variants, for the variant-selection witness. -/
def demoVariantProduct : ProductData :=
  { id := 2, title := "Cap", description := none, price := 500,
    compare_at_price := none, available := true, images := [],
    variants := [demoVariantA, demoVariantB],
    options := [{ name := "Color", values := ["Red", "Blue"] }], handle := "cap" }

/-- A menu state with item 0 active and expanded, used to exhibit the
overflow-hover guard of the private deactivate. -/
def hoveredMenuState : MenuState :=
  { activeItem := some 0, selfExpanded := true, overflowExpanded := true,
    aria := fun j => j == 0 }

/-! ## Helper lemmas -/

/-- One quantity click keeps the value in the interval from 1 to 999. -/
theorem applyQtyClick_mem (c : QtyClick) (v : Nat) (h1 : 1 ≤ v) (h2 : v ≤ 999) :
    1 ≤ applyQtyClick c v ∧ applyQtyClick c v ≤ 999 := by
  cases c <;> simp only [applyQtyClick, minusClick, plusClick] <;> split <;> omega

/-- Any sequence of quantity clicks keeps the value in the interval from 1 to
999. -/
theorem applyQtyClicks_mem (cs : List QtyClick) :
    ∀ v : Nat, 1 ≤ v → v ≤ 999 →
      1 ≤ applyQtyClicks cs v ∧ applyQtyClicks cs v ≤ 999 := by
  induction cs with
  | nil => intro v h1 h2; exact ⟨h1, h2⟩
  | cons c cs ih =>
      intro v h1 h2
      have h := applyQtyClick_mem c v h1 h2
      exact ih (applyQtyClick c v) h.1 h.2

/-- The first element satisfying the predicate is what `find?` returns. -/
theorem find?_of_first {α : Type} (p : α → Bool) :
    ∀ (l : List α) (i : Nat) (v : α), l.get? i = some v → p v = true →
      (∀ j, j < i → ∀ w, l.get? j = some w → p w = false) →
      l.find? p = some v := by
  intro l
  induction l with
  | nil => intro i v h; simp at h
  | cons a l ih =>
      intro i v hget hp hfirst
      cases i with
      | zero =>
          simp only [List.get?] at hget
          cases hget
          exact List.find?_cons_of_pos l hp
      | succ i =>
          have ha : p a = false := hfirst 0 (Nat.succ_pos i) a rfl
          rw [List.find?_cons_of_neg l (by simp [ha])]
          exact ih i v hget hp
            (fun j hj w hw => hfirst (j + 1) (Nat.succ_lt_succ hj) w hw)

/-- A cache miss means the key is absent, so `Map.set` appends. -/
theorem cacheSet_of_miss (cache : List (String × ProductData)) (handle : String)
    (d : ProductData) (h : cacheGet cache handle = none) :
    cacheSet cache handle d = cache ++ [(handle, d)] := by
  have hfind : cache.find? (fun p => decide (p.1 = handle)) = none := by
    unfold cacheGet at h
    cases hf : cache.find? (fun p => decide (p.1 = handle)) with
    | none => rfl
    | some q => rw [hf] at h; simp at h
  have hall := List.find?_eq_none.mp hfind
  have hany : cache.any (fun p => decide (p.1 = handle)) = false := by
    by_contra hne
    have : cache.any (fun p => decide (p.1 = handle)) = true := by
      cases hv : cache.any (fun p => decide (p.1 = handle)) with
      | true => rfl
      | false => exact absurd hv hne
    obtain ⟨x, hx, hpx⟩ := List.any_eq_true.mp this
    exact absurd hpx (hall x hx)
  unfold cacheSet
  rw [hany]
  simp

/-- After `Map.set` on a missing key, `Map.get` of that key finds the stored
value. -/
theorem cacheGet_set_self (cache : List (String × ProductData)) (handle : String)
    (d : ProductData) (h : cacheGet cache handle = none) :
    cacheGet (cacheSet cache handle d) handle = some d := by
  rw [cacheSet_of_miss cache handle d h]
  have hfind : cache.find? (fun p => decide (p.1 = handle)) = none := by
    unfold cacheGet at h
    cases hf : cache.find? (fun p => decide (p.1 = handle)) with
    | none => rfl
    | some q => rw [hf] at h; simp at h
  unfold cacheGet
  rw [List.find?_append, hfind]
  simp

/-- The strengthened invariant holds in the initial menu state. -/
theorem ariaMatchesActive_initial : AriaMatchesActive initialMenuState := by
  intro j h
  simp [initialMenuState] at h

/-- When the target item is already active, the activation handler is a
no-op. -/
theorem activateHandler_skip (s : MenuState) (it : Nat) (isDefaultSlot : Bool)
    (heq : s.activeItem = some it) :
    activateHandler (some it) isDefaultSlot s = s := by
  simp [activateHandler, heq]

/-- When the target item is not the active one, the activation handler
produces exactly this state. -/
theorem activateHandler_eq (s : MenuState) (it : Nat) (isDefaultSlot : Bool)
    (hne : s.activeItem ≠ some it) :
    activateHandler (some it) isDefaultSlot s =
      { activeItem := some it, selfExpanded := true,
        overflowExpanded := !isDefaultSlot,
        aria := fun j =>
          if j = it then true
          else if s.activeItem = some j then false
          else s.aria j } := by
  simp [activateHandler, hne]

/-- With the overflow menu hovered, the private deactivate is a no-op. -/
theorem deactivateNow_hovered (s : MenuState) (item : Option Nat) :
    deactivateNow item true s = s := by
  cases item with
  | none => rfl
  | some it =>
      by_cases hact : s.activeItem = some it <;> simp [deactivateNow, hact]

/-- When the item is no longer the active one, the private deactivate is a
no-op. -/
theorem deactivateNow_stale (s : MenuState) (it : Nat) (hov : Bool)
    (hne : s.activeItem ≠ some it) :
    deactivateNow (some it) hov s = s := by
  simp [deactivateNow, hne]

/-- When the item is still active and the overflow menu is not hovered, the
private deactivate produces exactly this state. -/
theorem deactivateNow_fires (s : MenuState) (it : Nat)
    (hact : s.activeItem = some it) :
    deactivateNow (some it) false s =
      { activeItem := none, selfExpanded := false, overflowExpanded := false,
        aria := fun j => if j = it then false else s.aria j } := by
  simp [deactivateNow, hact]

/-- The activation handler preserves the strengthened invariant. -/
theorem ariaMatchesActive_activate (s : MenuState) (item : Option Nat)
    (isDefaultSlot : Bool) (h : AriaMatchesActive s) :
    AriaMatchesActive (activateHandler item isDefaultSlot s) := by
  cases item with
  | none => exact h
  | some it =>
      by_cases hact : s.activeItem = some it
      · rw [activateHandler_skip s it isDefaultSlot hact]; exact h
      · rw [activateHandler_eq s it isDefaultSlot hact]
        intro j hj
        simp only at hj
        by_cases hji : j = it
        · subst hji; rfl
        · rw [if_neg hji] at hj
          by_cases hsj : s.activeItem = some j
          · rw [if_pos hsj] at hj; exact absurd hj (by simp)
          · rw [if_neg hsj] at hj
            exact absurd (h j hj) hsj

/-- The private deactivate preserves the strengthened invariant. -/
theorem ariaMatchesActive_deactivate (s : MenuState) (item : Option Nat)
    (overflowHovered : Bool) (h : AriaMatchesActive s) :
    AriaMatchesActive (deactivateNow item overflowHovered s) := by
  cases item with
  | none => exact h
  | some it =>
      by_cases hact : s.activeItem = some it
      · cases overflowHovered with
        | true => rw [deactivateNow_hovered]; exact h
        | false =>
            rw [deactivateNow_fires s it hact]
            intro j hj
            simp only at hj
            by_cases hji : j = it
            · rw [if_pos hji] at hj; exact absurd hj (by simp)
            · rw [if_neg hji] at hj
              have := h j hj
              rw [hact] at this
              exact absurd (Option.some.inj this).symm hji
      · rw [deactivateNow_stale s it overflowHovered hact]; exact h

/-- Every reachable menu state satisfies the strengthened invariant. -/
theorem reachable_ariaMatchesActive (s : MenuState) (h : ReachableMenu s) :
    AriaMatchesActive s := by
  induction h with
  | init => exact ariaMatchesActive_initial
  | act s item isDefaultSlot _ ih => exact ariaMatchesActive_activate s item isDefaultSlot ih
  | deact s item overflowHovered _ ih =>
      exact ariaMatchesActive_deactivate s item overflowHovered ih

/-! ## Claim theorems -/

/-- Claim C8: starting from the rendered initial value 1, every sequence of
minus and plus clicks keeps the quantity input between 1 and 999 inclusive; a
minus click at 1 and a plus click at 999 leave the value unchanged, and
otherwise the clicks decrement or increment by exactly 1. -/
theorem c8_quantity_bounds :
    (∀ cs : List QtyClick,
      1 ≤ applyQtyClicks cs 1 ∧ applyQtyClicks cs 1 ≤ 999) ∧
    minusClick 1 = 1 ∧ plusClick 999 = 999 ∧
    (∀ v : Nat, 1 < v → minusClick v = v - 1) ∧
    (∀ v : Nat, v < 999 → plusClick v = v + 1) := by
  refine ⟨fun cs => applyQtyClicks_mem cs 1 le_rfl (by omega), rfl, rfl, ?_, ?_⟩
  · intro v hv; simp [minusClick, hv]
  · intro v hv; simp [plusClick, hv]

/-- Witness for C8 at concrete inputs. -/
theorem c8_quantity_bounds_witness :
    (1 ≤ applyQtyClicks [QtyClick.plus, QtyClick.minus, QtyClick.minus] 1 ∧
      applyQtyClicks [QtyClick.plus, QtyClick.minus, QtyClick.minus] 1 ≤ 999) ∧
    minusClick 5 = 5 - 1 ∧ plusClick 10 = 10 + 1 :=
  ⟨c8_quantity_bounds.1 [QtyClick.plus, QtyClick.minus, QtyClick.minus],
    c8_quantity_bounds.2.2.2.1 5 (by omega),
    c8_quantity_bounds.2.2.2.2 10 (by omega)⟩

/-- Claim C10: `buildMediaGallery` returns the empty string when the images
array is missing or empty, and otherwise renders exactly the first
`min(length, 5)` images, one item per image, in input order. -/
theorem c10_media_gallery :
    buildMediaGallery none = "" ∧
    buildMediaGallery (some []) = "" ∧
    ∀ imgs : List String, imgs ≠ [] →
      buildMediaGallery (some imgs) =
        mediaGalleryWrap (String.join ((imgs.take 5).map mediaItemHtml)) ∧
      (imgs.take 5).length = min imgs.length 5 ∧
      ∀ i : Nat, i < min imgs.length 5 → (imgs.take 5).get? i = imgs.get? i := by
  refine ⟨rfl, rfl, fun imgs hne => ⟨?_, ?_, ?_⟩⟩
  · have : imgs.length ≠ 0 := by simpa using hne
    simp [buildMediaGallery, this]
  · simp [Nat.min_comm]
  · intro i hi
    exact List.get?_take (by omega)

/-- Witness for C10 at a concrete image list. -/
theorem c10_media_gallery_witness :
    buildMediaGallery (some ["a.jpg", "b.jpg"]) =
      mediaGalleryWrap
        (String.join ((["a.jpg", "b.jpg"].take 5).map mediaItemHtml)) ∧
    ((["a.jpg", "b.jpg"] : List String).take 5).length =
      min (["a.jpg", "b.jpg"] : List String).length 5 :=
  ⟨(c10_media_gallery.2.2 ["a.jpg", "b.jpg"] (by simp)).1,
    (c10_media_gallery.2.2 ["a.jpg", "b.jpg"] (by simp)).2.1⟩

/-- Claim C6, counterexample: two consecutive clicks do not restore the
submenu hidden state when the initial state has the link collapsed but the
submenu visible — the claim as stated (the toggle is an involution on every
state) is false. -/
theorem c6_toggle_counterexample :
    submenuToggleClick true (submenuToggleClick true ⟨false, false⟩) ≠
      (⟨false, false⟩ : SubmenuToggleState) := by
  decide

/-- Claim C6, amended: a click always flips the aria-expanded state, and when
a submenu exists it sets hidden exactly when the link was expanded; two
consecutive clicks always restore the aria-expanded state, and they restore
the full state (the toggle is an involution) exactly on states where the
submenu hidden flag is the negation of aria-expanded. -/
theorem c6_toggle_amended (hasSubmenu : Bool) (s : SubmenuToggleState) :
    (submenuToggleClick hasSubmenu s).ariaExpanded = !s.ariaExpanded ∧
    (hasSubmenu = true →
      (submenuToggleClick hasSubmenu s).hidden = s.ariaExpanded) ∧
    (submenuToggleClick hasSubmenu
        (submenuToggleClick hasSubmenu s)).ariaExpanded = s.ariaExpanded ∧
    (s.hidden = !s.ariaExpanded →
      submenuToggleClick hasSubmenu (submenuToggleClick hasSubmenu s) = s) := by
  rcases s with ⟨e, h⟩
  cases hasSubmenu <;> cases e <;> cases h <;> decide

/-- Witness for C6 (amended) at a concrete consistent state. -/
theorem c6_toggle_amended_witness :
    (submenuToggleClick true ⟨false, true⟩).ariaExpanded = !false ∧
    submenuToggleClick true (submenuToggleClick true ⟨false, true⟩) =
      (⟨false, true⟩ : SubmenuToggleState) :=
  ⟨(c6_toggle_amended true ⟨false, true⟩).1,
    (c6_toggle_amended true ⟨false, true⟩).2.2.2 (by decide)⟩

/-- Claim C5, counterexample: when the click is on a quick-view button whose
dataset lacks a productId, the handler still calls `preventDefault` (it runs
before the dataset check), contradicting the claim that it returns without
preventing navigation. -/
theorem c5_missing_data_counterexample :
    (handleQuickViewClick
        ⟨some { productId := none, productHandle := some "shirt" }⟩).prevented =
      true ∧
    (handleQuickViewClick
        ⟨some { productId := none, productHandle := some "shirt" }⟩).loadedHandle =
      none ∧
    (handleQuickViewClick
        ⟨some { productId := none, productHandle := some "shirt" }⟩).dialogShown =
      false := by
  decide

/-- Claim C5, amended: a click outside any quick-view button does nothing;
a click on a button carrying both dataset fields prevents navigation, loads
the handle, and shows the dialog; a click on a button missing either field
still prevents navigation and stops propagation (those calls precede the
dataset check) but neither loads nor shows the dialog. -/
theorem c5_quick_view_click_amended (btn : QuickViewBtn) :
    handleQuickViewClick ⟨none⟩ =
      { prevented := false, stopped := false, loadedHandle := none,
        dialogShown := false } ∧
    (truthyStr btn.productId = true → truthyStr btn.productHandle = true →
      handleQuickViewClick ⟨some btn⟩ =
        { prevented := true, stopped := true,
          loadedHandle := btn.productHandle, dialogShown := true }) ∧
    ((truthyStr btn.productId = false ∨ truthyStr btn.productHandle = false) →
      handleQuickViewClick ⟨some btn⟩ =
        { prevented := true, stopped := true, loadedHandle := none,
          dialogShown := false }) := by
  refine ⟨rfl, ?_, ?_⟩
  · intro h1 h2
    simp [handleQuickViewClick, h1, h2]
  · intro h
    rcases h with h | h <;> simp [handleQuickViewClick, h]

/-- Witness for C5 (amended) at a concrete complete dataset. -/
theorem c5_quick_view_click_amended_witness :
    handleQuickViewClick
        ⟨some { productId := some "1", productHandle := some "shirt" }⟩ =
      { prevented := true, stopped := true, loadedHandle := some "shirt",
        dialogShown := true } :=
  (c5_quick_view_click_amended
      { productId := some "1", productHandle := some "shirt" }).2.1
    (by decide) (by decide)

/-- Claim C4: after any sequence of activate and deactivate calls ending in
an activate, the debounce slots hold exactly that activation and no pending
deactivation — `activate` cancels both pending debounced calls before
scheduling its own, so a deactivation scheduled before a later activate never
fires, and firing the deactivate timer afterwards changes nothing. -/
theorem c4_last_event_wins (calls : List MenuCall) (s : Sched) (e : Nat) :
    processCalls (calls ++ [MenuCall.act e]) s =
      { pendingActivate := some e, pendingDeactivate := false } ∧
    (processCalls (calls ++ [MenuCall.act e]) s).pendingDeactivate = false ∧
    ∀ (overflowHovered : Bool) (m : MenuState),
      fireDeactivate (processCalls (calls ++ [MenuCall.act e]) s)
          overflowHovered m = m := by
  have hmain : processCalls (calls ++ [MenuCall.act e]) s =
      { pendingActivate := some e, pendingDeactivate := false } := by
    simp [processCalls, List.foldl_append, activate]
  refine ⟨hmain, by rw [hmain], ?_⟩
  intro overflowHovered m
  rw [hmain]
  simp [fireDeactivate]

/-- Claim C7: a pointerleave on the overflow menu or on a submenu leaves the
menu state (in particular the active item) unchanged and only schedules the
private deactivate to fire DEACTIVATE_DELAY = 350 ms later; a pointerenter on
a submenu before the timer fires cancels the pending deactivation, again
leaving the menu state unchanged, after which no timer tick can ever change
the state. -/
theorem c7_debounced_deactivation (s : TimedMenu) (now : Nat) :
    DEACTIVATE_DELAY = 350 ∧
    (overflowPointerLeave now s).menu = s.menu ∧
    (overflowPointerLeave now s).pendingDeactAt = some (now + DEACTIVATE_DELAY) ∧
    (submenuPointerLeave true now s).menu = s.menu ∧
    (submenuPointerLeave true now s).pendingDeactAt =
      some (now + DEACTIVATE_DELAY) ∧
    (submenuPointerEnter true (overflowPointerLeave now s)).menu = s.menu ∧
    (submenuPointerEnter true (overflowPointerLeave now s)).pendingDeactAt =
      none ∧
    ∀ (t : Nat) (overflowHovered : Bool),
      timerTick t overflowHovered
          (submenuPointerEnter true (overflowPointerLeave now s)) =
        submenuPointerEnter true (overflowPointerLeave now s) := by
  refine ⟨rfl, rfl, rfl, rfl, rfl, rfl, rfl, ?_⟩
  intro t overflowHovered
  rfl

/-- Claim C3, counterexample: with item 0 active and the overflow menu
hovered, the private deactivate runs its guards and returns early — the
active item is not reset to null and its aria-expanded stays true, so the
claim that every run of the deactivate resets the state is false. -/
theorem c3_deactivate_counterexample :
    (deactivateNow (some 0) true hoveredMenuState).activeItem = some 0 ∧
    (deactivateNow (some 0) true hoveredMenuState).aria 0 = true := by
  constructor <;> rfl

/-- Claim C3, amended: every reachable menu state has at most one item with
aria-expanded true; activating an item distinct from the active one makes it
the single active item with aria-expanded true and collapses the previously
active item; and the private deactivate, when it runs on the still-active
item with the overflow menu not hovered, resets the active item to null and
its aria-expanded to false (when the item is stale or the overflow menu is
hovered it leaves the state unchanged). -/
theorem c3_single_active_amended :
    (∀ s : MenuState, ReachableMenu s → AtMostOneAria s) ∧
    (∀ (s : MenuState) (i : Nat) (isDefaultSlot : Bool),
      s.activeItem ≠ some i → AriaMatchesActive s →
        (activateHandler (some i) isDefaultSlot s).activeItem = some i ∧
        (∀ j, (activateHandler (some i) isDefaultSlot s).aria j = true ↔ j = i) ∧
        (∀ p, s.activeItem = some p →
          (activateHandler (some i) isDefaultSlot s).aria p = false)) ∧
    (∀ (s : MenuState) (i : Nat), s.activeItem = some i →
        (deactivateNow (some i) false s).activeItem = none ∧
        (deactivateNow (some i) false s).aria i = false) ∧
    (∀ (s : MenuState) (i : Nat) (hov : Bool),
      s.activeItem ≠ some i → deactivateNow (some i) hov s = s) ∧
    (∀ (s : MenuState) (item : Option Nat), deactivateNow item true s = s) := by
  refine ⟨?_, ?_, ?_, deactivateNow_stale, deactivateNow_hovered⟩
  · intro s hs j k hj hk
    have inv := reachable_ariaMatchesActive s hs
    have h1 := inv j hj
    have h2 := inv k hk
    rw [h1] at h2
    exact Option.some.inj h2
  · intro s i isDefaultSlot hne hinv
    rw [activateHandler_eq s i isDefaultSlot hne]
    refine ⟨rfl, ?_, ?_⟩
    · intro j
      simp only
      constructor
      · intro hj
        by_cases hji : j = i
        · exact hji
        · rw [if_neg hji] at hj
          by_cases hsj : s.activeItem = some j
          · rw [if_pos hsj] at hj; exact absurd hj (by simp)
          · rw [if_neg hsj] at hj
            exact absurd (hinv j hj) hsj
      · intro hj; subst hj; simp
    · intro p hp
      have hpi : p ≠ i := by
        intro hcontra; subst hcontra; exact hne hp
      simp only
      rw [if_neg hpi, if_pos hp]
  · intro s i hact
    rw [deactivateNow_fires s i hact]
    exact ⟨rfl, by simp⟩

/-- Witness for C3 (amended): the invariant and the transition effects at the
concrete initial state and item 0. -/
theorem c3_single_active_amended_witness :
    AtMostOneAria (activateHandler (some 0) true initialMenuState) ∧
    (activateHandler (some 0) true initialMenuState).activeItem = some 0 ∧
    (deactivateNow (some 0) false
        (activateHandler (some 0) true initialMenuState)).activeItem = none := by
  refine ⟨c3_single_active_amended.1 _
      (ReachableMenu.act _ (some 0) true ReachableMenu.init), ?_, ?_⟩
  · exact (c3_single_active_amended.2.1 initialMenuState 0 true
      (by simp [initialMenuState]) ariaMatchesActive_initial).1
  · exact (c3_single_active_amended.2.2.1
      (activateHandler (some 0) true initialMenuState) 0 rfl).1

/-- Claim C1: the quick-view load caches by handle — a first load with a cache
miss and a successful fetch-and-extract performs exactly one fetch, stores
the extracted data in the cache under the handle, and renders it; any load
that hits the cache performs no fetch and renders the stored entry, so the
second load of the same handle renders the same extracted data with no
fetch. -/
theorem c1_quick_view_cache (server : String → FetchResponse) (handle : String)
    (s : DrawerState) (d : ProductData)
    (hmiss : cacheGet s.cache handle = none)
    (hok : (server handle).ok = true)
    (hext : extractProductData (server handle).productJson = Except.ok d) :
    (loadProductData server handle s).2 = 1 ∧
    cacheGet (loadProductData server handle s).1.cache handle = some d ∧
    (loadProductData server handle s).1.content = DrawerContent.rendered d ∧
    loadProductData server handle (loadProductData server handle s).1 =
      ((loadProductData server handle s).1, 0) ∧
    ∀ s2 : DrawerState, cacheGet s2.cache handle = some d →
      loadProductData server handle s2 =
        ({ s2 with content := DrawerContent.rendered d }, 0) := by
  have hcached : ∀ s2 : DrawerState, cacheGet s2.cache handle = some d →
      loadProductData server handle s2 =
        ({ s2 with content := DrawerContent.rendered d }, 0) := by
    intro s2 h2
    simp [loadProductData, h2]
  have hfirst : loadProductData server handle s =
      ({ cache := cacheSet s.cache handle d,
         content := DrawerContent.rendered d }, 1) := by
    simp [loadProductData, hmiss, hok, hext]
  have hget : cacheGet (cacheSet s.cache handle d) handle = some d :=
    cacheGet_set_self s.cache handle d hmiss
  refine ⟨by rw [hfirst], by rw [hfirst]; exact hget, by rw [hfirst], ?_, hcached⟩
  rw [hfirst]
  have := hcached ⟨cacheSet s.cache handle d, DrawerContent.rendered d⟩ hget
  simpa using this

/-- Witness for C1: the full fetch-cache-render round trip on a concrete
server, handle, and empty cache. -/
theorem c1_quick_view_cache_witness :
    cacheGet (loadProductData demoServer "shirt" demoEmptyState).1.cache
        "shirt" = some demoProductData ∧
    loadProductData demoServer "shirt"
        (loadProductData demoServer "shirt" demoEmptyState).1 =
      ((loadProductData demoServer "shirt" demoEmptyState).1, 0) :=
  ⟨(c1_quick_view_cache demoServer "shirt" demoEmptyState demoProductData
      rfl rfl rfl).2.1,
    (c1_quick_view_cache demoServer "shirt" demoEmptyState demoProductData
      rfl rfl rfl).2.2.2.1⟩

/-- Claim C2: on a cache miss, when the response is not ok or the fetched
document has no product JSON (so the extraction throws), the load shows the
error state and leaves the cache exactly as it was — no entry is added for
the handle. -/
theorem c2_error_atomic (server : String → FetchResponse) (handle : String)
    (s : DrawerState)
    (hmiss : cacheGet s.cache handle = none)
    (herr : (server handle).ok = false ∨ (server handle).productJson = none) :
    loadProductData server handle s =
      ({ s with content := DrawerContent.error }, 1) ∧
    (loadProductData server handle s).1.cache = s.cache ∧
    cacheGet (loadProductData server handle s).1.cache handle = none := by
  have hmain : loadProductData server handle s =
      ({ s with content := DrawerContent.error }, 1) := by
    rcases herr with h | h
    · simp [loadProductData, hmiss, h]
    · cases hok : (server handle).ok
      · simp [loadProductData, hmiss, hok]
      · simp [loadProductData, hmiss, hok, h, extractProductData]
  exact ⟨hmain, by rw [hmain], by rw [hmain]; exact hmiss⟩

/-- Witness for C2: a not-ok response on a concrete handle and empty cache
yields the error state and an unchanged cache. -/
theorem c2_error_atomic_witness :
    loadProductData demoErrServer "shirt" demoEmptyState =
      ({ demoEmptyState with content := DrawerContent.error }, 1) ∧
    cacheGet (loadProductData demoErrServer "shirt" demoEmptyState).1.cache
        "shirt" = none :=
  ⟨(c2_error_atomic demoErrServer "shirt" demoEmptyState rfl (Or.inl rfl)).1,
    (c2_error_atomic demoErrServer "shirt" demoEmptyState rfl
      (Or.inl rfl)).2.2⟩

/-- Claim C9: with a non-empty variants array, `getSelectedVariant` always
returns a variant: the first variant whose options agree with the selected
values at each selected index when one exists, and `variants[0]` when no
variant matches. -/
theorem c9_variant_fallback (product : ProductData) (sel : List String)
    (hne : product.variants ≠ []) :
    (∃ v, getSelectedVariant product sel = some v) ∧
    ((∀ v ∈ product.variants, matchesSel v sel = false) →
      getSelectedVariant product sel = product.variants.head?) ∧
    (∀ (i : Nat) (v : Variant), product.variants.get? i = some v →
      matchesSel v sel = true →
      (∀ j, j < i → ∀ w, product.variants.get? j = some w →
        matchesSel w sel = false) →
      getSelectedVariant product sel = some v) := by
  refine ⟨?_, ?_, ?_⟩
  · unfold getSelectedVariant
    cases hf : product.variants.find? (fun v => matchesSel v sel) with
    | some v => exact ⟨v, rfl⟩
    | none =>
        cases hv : product.variants with
        | nil => exact absurd hv hne
        | cons a l => exact ⟨a, by simp [hv]⟩
  · intro hnomatch
    have hf : product.variants.find? (fun v => matchesSel v sel) = none :=
      List.find?_eq_none.mpr (fun x hx => by simp [hnomatch x hx])
    simp [getSelectedVariant, hf]
  · intro i v hget hmatch hfirst
    have hf : product.variants.find? (fun v => matchesSel v sel) = some v :=
      find?_of_first (fun v => matchesSel v sel) product.variants i v hget
        hmatch hfirst
    simp [getSelectedVariant, hf]

/-- Witness for C9: on a concrete two-variant product, a selection matching
the second variant returns it, and a selection matching nothing falls back to
the first variant. -/
theorem c9_variant_fallback_witness :
    getSelectedVariant demoVariantProduct ["Blue"] = some demoVariantB ∧
    getSelectedVariant demoVariantProduct ["Green"] =
      demoVariantProduct.variants.head? :=
  ⟨(c9_variant_fallback demoVariantProduct ["Blue"] (by decide)).2.2 1
      demoVariantB rfl (by decide)
      (fun j hj w hw => by
        cases j with
        | zero =>
            have hw0 : demoVariantA = w := Option.some.inj hw
            rw [← hw0]
            decide
        | succ n => omega),
    (c9_variant_fallback demoVariantProduct ["Green"] (by decide)).2.1
      (by decide)⟩

end Refire
